import Mathlib

/-!
# Verification of the gemara-mcp-server artifact core

A shallow embedding of the schema-validated artifact store with cross-layer
relationship resolution implemented in `tools/` (relationships.go,
validation.go, layer1.go, layer2.go, tools.go), together with proofs of the
specified properties.

External effects (HTTP schema fetches, temp-file IO, the CUE evaluator) are
represented by explicit oracle parameters; the Go control flow over those
effects is embedded faithfully.  Go maps (`map[string]*T`) are embedded as
association lists with first-match lookup; Go map iteration order is the list
order.
-/

namespace Gemara

/-! ## Data model (the gemara layer1/layer2/layer3 types, fields used by tools/) -/

/-- The subset of gemara document metadata read by the tools (layer 1 and
common metadata: `Id`, `Title`, `Author`, `Version`, `DocumentType`,
`Description`). -/
structure Layer1Metadata where
  id : String
  title : String
  author : String
  version : String
  documentType : String
  description : String
  deriving DecidableEq

/-- A single guideline inside a layer-1 category (only counted by the tools). -/
structure Guideline where
  id : String
  title : String
  deriving DecidableEq

/-- A layer-1 category: an ordered list of guidelines. -/
structure Category where
  id : String
  title : String
  guidelines : List Guideline
  deriving DecidableEq

/-- Embedding of `layer1.GuidanceDocument`: metadata plus ordered categories. -/
structure GuidanceDocument where
  metadata : Layer1Metadata
  categories : List Category
  deriving DecidableEq

/-- One weighted entry of a guideline mapping (`ReferenceId`, `Strength`,
`Remarks`). -/
structure MappingEntry where
  referenceId : String
  strength : Int
  remarks : String
  deriving DecidableEq

/-- A gemara mapping: a target document reference plus weighted entries.  Used
both for layer-2 `GuidelineMappings` and layer-3 `GuidanceReferences` /
`ControlReferences`. -/
structure Mapping where
  referenceId : String
  entries : List MappingEntry
  deriving DecidableEq

/-- Embedding of `layer2.Control`: id, title, objective and guideline mappings. -/
structure Control where
  id : String
  title : String
  objective : String
  guidelineMappings : List Mapping
  deriving DecidableEq

/-- Embedding of `layer2.ControlFamily`: a named group of controls. -/
structure ControlFamily where
  id : String
  title : String
  controls : List Control
  deriving DecidableEq

/-- The subset of `layer2.Catalog` metadata read by the tools. -/
structure CatalogMetadata where
  id : String
  title : String
  description : String
  deriving DecidableEq

/-- Embedding of `layer2.Catalog`: metadata plus control families. -/
structure Catalog where
  metadata : CatalogMetadata
  controlFamilies : List ControlFamily
  deriving DecidableEq

/-- The subset of `layer3.PolicyDocument` metadata read by the tools. -/
structure PolicyMetadata where
  id : String
  title : String
  organizationID : String
  version : String
  objective : String
  deriving DecidableEq

/-- Embedding of `layer3.PolicyDocument`: metadata plus guidance and control references. -/
structure PolicyDocument where
  metadata : PolicyMetadata
  guidanceReferences : List Mapping
  controlReferences : List Mapping
  deriving DecidableEq

/-! ## Go maps as association lists -/

/-- First-match lookup in an association list; the embedding of a Go map
read `m[k]` (with the `, ok` form distinguishing presence). -/
def lookupAssoc {κ α : Type} [DecidableEq κ] (l : List (κ × α)) (k : κ) : Option α :=
  match l with
  | [] => none
  | (k₀, v₀) :: rest => if k₀ = k then some v₀ else lookupAssoc rest k



/-! ## Server state

`GemaraAuthoringTools` (tools.go): the in-memory per-layer caches, the CUE
schema cache (keyed by `int`: positive layer numbers, `-1`/`-2`/`-3` for the
shared fragments, `-1000` otherwise), and the optional disk storage. -/

/-- Embedding of `ArtifactIndexEntry`: the store's lightweight catalog entry. -/
structure ArtifactIndexEntry where
  id : String
  layer : Int
  title : String
  deriving DecidableEq

/-- Modelled from the spec: `ArtifactStorage` (its Go source is not under
`src/`; only its callers are).  Per spec §4.3 it is a durable, layer-partitioned
store of the raw document text keyed by `(layer, id)`, with a secondary index
of `ArtifactIndexEntry` records. -/
structure ArtifactStorage where
  files : List ((Int × String) × String)
  index : List ArtifactIndexEntry
  deriving DecidableEq

/-- The server state: in-memory artifact caches, CUE schema cache, optional
disk storage (`storage` is `none` when `NewArtifactStorage` failed). -/
structure GemaraAuthoringTools where
  layer1Guidance : List (String × GuidanceDocument)
  layer2Catalogs : List (String × Catalog)
  layer3Policies : List (String × PolicyDocument)
  schemaCache : List (Int × String)
  storage : Option ArtifactStorage

/-! ## Relationship resolution (relationships.go) -/

/-- Embedding of `ArtifactRelationships`: the result node of relationship resolution.
The heterogeneous `Details` map is embedded as string key/value pairs. -/
structure ArtifactRelationships where
  artifactID : String
  artifactType : String
  title : String
  referencedBy : List String
  references : List String
  details : List (String × String)
  deriving DecidableEq

/-- Embedding of `controlReferencesLayer1`: does any guideline mapping of `control` target
`guidanceID`? -/
def controlReferencesLayer1 (control : Control) (guidanceID : String) : Bool :=
  control.guidelineMappings.any (fun m => m.referenceId == guidanceID)

/-- Embedding of `policyReferencesControl`: does any control reference of `policy` target
`controlID`?  (`catalogID` is accepted for context but unused, as in the Go
code.) -/
def policyReferencesControl (policy : PolicyDocument) (catalogID controlID : String) :
    Bool :=
  let _ := catalogID
  policy.controlReferences.any (fun ref => ref.referenceId == controlID)

/-- Embedding of `countGuidelines`: total number of guidelines across all categories. -/
def countGuidelines (guidance : GuidanceDocument) : Nat :=
  (guidance.categories.map (fun c => c.guidelines.length)).sum

/-- The `"catalogID:controlID (Layer 2)"` labels of the controls of one catalog
whose guideline mappings target `guidanceID` (inner loops of
`buildLayer1Relationships`). -/
def catalogReferencingControls (catalogID : String) (catalog : Catalog)
    (guidanceID : String) : List String :=
  ((catalog.controlFamilies.map (fun family =>
    (family.controls.filter (fun c => controlReferencesLayer1 c guidanceID)).map
      (fun c => catalogID ++ ":" ++ c.id ++ " (Layer 2)"))).flatten)

/-- Embedding of `buildLayer1Relationships`: resolve a layer-1 guidance id.  Errors only
when the id is absent from the layer-1 cache; otherwise scans every catalog ×
family × control for guideline mappings targeting the id. -/
def buildLayer1Relationships (g : GemaraAuthoringTools) (guidanceID : String) :
    Except String ArtifactRelationships :=
  match lookupAssoc g.layer1Guidance guidanceID with
  | none => .error ("Layer 1 guidance with ID '" ++ guidanceID ++ "' not found")
  | some guidance =>
      .ok
        { artifactID := guidanceID
          artifactType := "layer1"
          title := guidance.metadata.title
          referencedBy :=
            (g.layer2Catalogs.map
              (fun p => catalogReferencingControls p.1 p.2 guidanceID)).flatten
          references := []
          details :=
            [("author", guidance.metadata.author),
             ("version", guidance.metadata.version),
             ("document_type", guidance.metadata.documentType),
             ("guideline_count", toString (countGuidelines guidance))] }

/-- First control with the given id inside a list of families (inner search
loop shared by `buildLayer2Relationships` and `buildLayer3Relationships`). -/
def findControlInFamilies (families : List ControlFamily) (controlID : String) :
    Option Control :=
  families.findSome? (fun fam => fam.controls.find? (fun c => c.id == controlID))

/-- First (catalogID, control) with the given control id, scanning catalogs in
map order. -/
def findControlInCatalogs (catalogs : List (String × Catalog)) (controlID : String) :
    Option (String × Control) :=
  catalogs.findSome?
    (fun p => (findControlInFamilies p.2.controlFamilies controlID).map
      (fun c => (p.1, c)))

/-- Embedding of `buildLayer2Relationships`: resolve a layer-2 control id.  Errors only when
no catalog contains the id; annotates each nonempty guideline-mapping target
as found / NOT FOUND; collects the policies referencing this control. -/
def buildLayer2Relationships (g : GemaraAuthoringTools) (controlID : String) :
    Except String ArtifactRelationships :=
  match findControlInCatalogs g.layer2Catalogs controlID with
  | none => .error ("Layer 2 control with ID '" ++ controlID ++ "' not found")
  | some (catalogID, foundControl) =>
      .ok
        { artifactID := controlID
          artifactType := "layer2"
          title := foundControl.title
          references :=
            foundControl.guidelineMappings.filterMap (fun m =>
              if m.referenceId = "" then none
              else if (lookupAssoc g.layer1Guidance m.referenceId).isSome then
                some (m.referenceId ++ " (Layer 1)")
              else
                some (m.referenceId ++ " (Layer 1 - NOT FOUND)"))
          referencedBy :=
            (g.layer3Policies.filter
              (fun p => policyReferencesControl p.2 catalogID controlID)).map
              (fun p => p.1 ++ " (Layer 3)")
          details :=
            [("catalog_id", catalogID), ("objective", foundControl.objective)] }

/-- Embedding of `buildLayer3Relationships`: resolve a layer-3 policy id.  Errors only when
the id is absent from the layer-3 cache; annotates each nonempty guidance /
control reference as found / NOT FOUND; `referencedBy` is always empty. -/
def buildLayer3Relationships (g : GemaraAuthoringTools) (policyID : String) :
    Except String ArtifactRelationships :=
  match lookupAssoc g.layer3Policies policyID with
  | none => .error ("Layer 3 policy with ID '" ++ policyID ++ "' not found")
  | some policy =>
      .ok
        { artifactID := policyID
          artifactType := "layer3"
          title := policy.metadata.title
          references :=
            (policy.guidanceReferences.filterMap (fun ref =>
              if ref.referenceId = "" then none
              else if (lookupAssoc g.layer1Guidance ref.referenceId).isSome then
                some (ref.referenceId ++ " (Layer 1)")
              else
                some (ref.referenceId ++ " (Layer 1 - NOT FOUND)"))) ++
            (policy.controlReferences.filterMap (fun ref =>
              if ref.referenceId = "" then none
              else
                match findControlInCatalogs g.layer2Catalogs ref.referenceId with
                | some (catID, _) =>
                    some (catID ++ ":" ++ ref.referenceId ++ " (Layer 2)")
                | none =>
                    some (ref.referenceId ++ " (Layer 2 - CONTROL NOT FOUND)")))
          referencedBy := []
          details :=
            [("organization", policy.metadata.organizationID),
             ("version", policy.metadata.version),
             ("objective", policy.metadata.objective)] }

/-- The outcome of an MCP tool handler: an error result or a text result. -/
inductive ToolResult where
  | error (msg : String)
  | text (msg : String)
  deriving DecidableEq

/-- Is the tool result an error result? -/
def ToolResult.isError : ToolResult → Bool
  | .error _ => true
  | .text _ => false

/-- Modelled from the spec: `marshalOutput` (its Go source is not under
`src/`).  Spec §1 treats export formatting as textual glue; serialization of an
`ArtifactRelationships` record (plain strings) to YAML/JSON is total, so it is
modelled as a total rendering function. -/
def marshalOutput (rel : ArtifactRelationships) (outputFormat : String) : String :=
  outputFormat ++ ":" ++ rel.artifactID ++ ":" ++ rel.artifactType ++ ":" ++
    rel.title ++ ":" ++ String.intercalate "," rel.referencedBy ++ ":" ++
    String.intercalate "," rel.references

/-- Embedding of `handleGetArtifactRelationships`: the `get_artifact_relationships` tool.
Checks the required arguments, dispatches on `artifact_type`, and renders the
resulting relationship node. -/
def handleGetArtifactRelationships (g : GemaraAuthoringTools)
    (artifactID artifactType outputFormat : String) : ToolResult :=
  if artifactID = "" then .error "artifact_id is required"
  else if artifactType = "" then
    .error "artifact_type is required (must be 'layer1', 'layer2', or 'layer3')"
  else
    let built : Except String ArtifactRelationships :=
      if artifactType = "layer1" then buildLayer1Relationships g artifactID
      else if artifactType = "layer2" then buildLayer2Relationships g artifactID
      else if artifactType = "layer3" then buildLayer3Relationships g artifactID
      else .error ""
    if artifactType = "layer1" ∨ artifactType = "layer2" ∨ artifactType = "layer3" then
      match built with
      | .error e => .error ("failed to build relationships: " ++ e)
      | .ok rel => .text (marshalOutput rel outputFormat)
    else
      .error ("invalid artifact_type: " ++ artifactType ++
        " (must be 'layer1', 'layer2', or 'layer3')")

/-! ## Schema fetching and caching (validation.go: getCUESchema, getCommonCUESchema)

An HTTP fetch is represented by an oracle returning a `FetchOutcome`: a
transport error, or a response with a status code and a body read that may
itself fail (`io.ReadAll`). -/

/-- Outcome of one `http.Get` interaction. -/
inductive FetchOutcome where
  | transportError (msg : String)
  | response (status : Nat) (body : Except String String)

/-- The fixed URL a layer schema is fetched from. -/
def layerSchemaURL (layer : Int) : String :=
  "https://raw.githubusercontent.com/ossf/gemara/main/schemas/layer-" ++
    toString layer ++ ".cue"

/-- The fixed URL a shared schema fragment is fetched from. -/
def commonSchemaURL (schemaName : String) : String :=
  "https://raw.githubusercontent.com/ossf/gemara/main/schemas/" ++ schemaName

/-- Embedding of `getCUESchema`: return the cached layer schema, or fetch it; a successful
fetch is stored in the cache, a failed one leaves the cache untouched.  The
second component is the schema cache after the call. -/
def getCUESchema (fetchLayer : Int → FetchOutcome) (cache : List (Int × String))
    (layer : Int) : Except String String × List (Int × String) :=
  match lookupAssoc cache layer with
  | some schema => (.ok schema, cache)
  | none =>
      match fetchLayer layer with
      | .transportError e =>
          (.error ("failed to fetch schema from " ++ layerSchemaURL layer ++ ": " ++ e),
           cache)
      | .response status body =>
          if status ≠ 200 then
            (.error ("failed to fetch schema: HTTP " ++ toString status), cache)
          else
            match body with
            | .error e => (.error ("failed to read schema: " ++ e), cache)
            | .ok schemaContent =>
                (.ok schemaContent, (layer, schemaContent) :: cache)

/-- The cache key `getCommonCUESchema` derives from a schema fragment name
(`-1000` for names outside the known set). -/
def commonSchemaCacheKey (schemaName : String) : Int :=
  if schemaName = "base.cue" then -1
  else if schemaName = "metadata.cue" then -2
  else if schemaName = "mapping.cue" then -3
  else -1000

/-- Embedding of `getCommonCUESchema`: like `getCUESchema` for the shared fragments, cached
under the negative key derived from the name. -/
def getCommonCUESchema (fetchCommon : String → FetchOutcome)
    (cache : List (Int × String)) (schemaName : String) :
    Except String String × List (Int × String) :=
  match lookupAssoc cache (commonSchemaCacheKey schemaName) with
  | some schema => (.ok schema, cache)
  | none =>
      match fetchCommon schemaName with
      | .transportError e =>
          (.error ("failed to fetch schema from " ++ commonSchemaURL schemaName ++
            ": " ++ e), cache)
      | .response status body =>
          if status ≠ 200 then
            (.error ("failed to fetch schema: HTTP " ++ toString status), cache)
          else
            match body with
            | .error e => (.error ("failed to read schema: " ++ e), cache)
            | .ok schemaContent =>
                (.ok schemaContent,
                 (commonSchemaCacheKey schemaName, schemaContent) :: cache)

/-! ## CUE validation (validation.go: PerformCUEValidation)

The temp-directory IO and the CUE evaluator are oracles: each effectful step
either succeeds or yields an error message.  The Go control flow over the
steps — and in particular which result fields each exit path populates — is
embedded exactly. -/

/-- Embedding of `ValidationResult`: validity flag, primary error, detail errors. -/
structure ValidationResult where
  Valid : Bool
  Error : String
  Errors : List String
  deriving DecidableEq

/-- Oracle for the IO and CUE-evaluation steps of `PerformCUEValidation`:
`none` means the step succeeds, `some e` that it fails with message `e`.
`writeFileErr` is keyed by target file name. -/
structure CUEEngine where
  mkdirTempErr : Option String
  writeFileErr : String → Option String
  loadSchemaErr : Option String
  buildSchemaErr : Option String
  loadDataErr : Option String
  buildDataErr : Option String
  unifyErr : Option String
  concreteErr : Option String

/-- A failed `ValidationResult` as built by the early-return paths: primary
error set, detail errors left at their initial empty value. -/
def vfail (e : String) : ValidationResult :=
  { Valid := false, Error := e, Errors := [] }

/-- The names of the shared schema fragments downloaded before validation. -/
def commonSchemas : List String := ["base.cue", "metadata.cue", "mapping.cue"]

/-- One iteration of the common-schema loop: fetch the fragment (through the
cache) and write it to the temp directory.  Returns an error message or the
updated cache (the cache keeps updates made before a later failure). -/
def loadAndWriteCommonSchema (en : CUEEngine) (fetchCommon : String → FetchOutcome)
    (schemaName : String) (cache : List (Int × String)) :
    Option String × List (Int × String) :=
  match getCommonCUESchema fetchCommon cache schemaName with
  | (.error e, cache₁) =>
      (some ("Failed to load common schema " ++ schemaName ++ ": " ++ e), cache₁)
  | (.ok _, cache₁) =>
      match en.writeFileErr schemaName with
      | some e =>
          (some ("Failed to write schema file " ++ schemaName ++ ": " ++ e), cache₁)
      | none => (none, cache₁)

/-- The common-schema loop over a list of fragment names, stopping at the first
failure. -/
def loadAndWriteCommonSchemas (en : CUEEngine) (fetchCommon : String → FetchOutcome)
    (names : List String) (cache : List (Int × String)) :
    Option String × List (Int × String) :=
  match names with
  | [] => (none, cache)
  | name :: rest =>
      match loadAndWriteCommonSchema en fetchCommon name cache with
      | (some e, cache₁) => (some e, cache₁)
      | (none, cache₁) => loadAndWriteCommonSchemas en fetchCommon rest cache₁

/-- The schema/data setup phase of `PerformCUEValidation`: temp directory,
common schemas, layer schema, data file.  Returns the first error message (if
any) and the schema cache after the phase. -/
def setupValidationFiles (en : CUEEngine) (fetchLayer : Int → FetchOutcome)
    (fetchCommon : String → FetchOutcome) (cache : List (Int × String))
    (layer : Int) : Option String × List (Int × String) :=
  match en.mkdirTempErr with
  | some e => (some ("Failed to create temporary directory: " ++ e), cache)
  | none =>
      match loadAndWriteCommonSchemas en fetchCommon commonSchemas cache with
      | (some e, cache₁) => (some e, cache₁)
      | (none, cache₁) =>
          match getCUESchema fetchLayer cache₁ layer with
          | (.error e, cache₂) =>
              (some ("Failed to load CUE schema for layer " ++ toString layer ++
                ": " ++ e), cache₂)
          | (.ok _, cache₂) =>
              match en.writeFileErr ("layer-" ++ toString layer ++ ".cue") with
              | some e => (some ("Failed to write layer schema file: " ++ e), cache₂)
              | none =>
                  match en.writeFileErr "data.yaml" with
                  | some e => (some ("Failed to write data file: " ++ e), cache₂)
                  | none => (none, cache₂)

/-- Embedding of `PerformCUEValidation`, acting on the schema cache (the only piece of
server state the Go method touches).  After successful setup: load and build
the schema instance block, load and build the data instance, unify, then
validate with `cue.Concrete(true)`.  The concreteness-failure path appends the
unified value's own error (vacuous there, since unification succeeded) and the
validation error to `Errors`. -/
def performCUEValidationCache (en : CUEEngine) (fetchLayer : Int → FetchOutcome)
    (fetchCommon : String → FetchOutcome) (cache : List (Int × String))
    (layer : Int) : ValidationResult × List (Int × String) :=
  match setupValidationFiles en fetchLayer fetchCommon cache layer with
  | (some e, cache₁) => (vfail e, cache₁)
  | (none, cache₁) =>
      match en.loadSchemaErr with
      | some e => (vfail ("Failed to load schema: " ++ e), cache₁)
      | none =>
      match en.buildSchemaErr with
      | some e => (vfail ("Failed to build schema: " ++ e), cache₁)
      | none =>
      match en.loadDataErr with
      | some e => (vfail ("Failed to load data: " ++ e), cache₁)
      | none =>
      match en.buildDataErr with
      | some e => (vfail ("Failed to build data instance: " ++ e), cache₁)
      | none =>
      match en.unifyErr with
      | some e => (vfail ("Schema unification failed: " ++ e), cache₁)
      | none =>
      match en.concreteErr with
      | some e =>
          ({ Valid := false
             Error := "Validation failed: " ++ e
             Errors :=
               (match en.unifyErr with
                | some ue => [ue]
                | none => []) ++ [e] }, cache₁)
      | none => ({ Valid := true, Error := "", Errors := [] }, cache₁)

/-- Embedding of `PerformCUEValidation` as a transformer of the full server state: reads and
writes only the `schemaCache` field. -/
def PerformCUEValidation (en : CUEEngine) (fetchLayer : Int → FetchOutcome)
    (fetchCommon : String → FetchOutcome) (g : GemaraAuthoringTools)
    (yamlContent : String) (layer : Int) :
    ValidationResult × GemaraAuthoringTools :=
  let _ := yamlContent
  let r := performCUEValidationCache en fetchLayer fetchCommon g.schemaCache layer
  (r.1, { g with schemaCache := r.2 })

/-! ## YAML metadata extraction (layer1.go / layer2.go / parser.go store handlers)

`yaml.Unmarshal` into `map[string]interface{}` is an oracle
`parse : String → Option YamlMap`; the handlers' type-asserting extraction of
`metadata.id` is embedded over the resulting dynamic values. -/

/-- A dynamic YAML value as produced by unmarshalling into `interface{}`:
a string, a nested map, or anything else. -/
inductive YamlVal where
  | vStr (s : String)
  | vMap (entries : List (String × YamlVal))
  | vOther

/-- The result of unmarshalling a whole document: a top-level map. -/
def YamlMap : Type := List (String × YamlVal)

/-- The handlers' extraction of `metadata["metadata"].(map)["id"].(string)`:
both type assertions must succeed, else the id stays at its zero value `""`. -/
def extractArtifactID (m : YamlMap) : String :=
  match lookupAssoc m "metadata" with
  | some (.vMap meta) =>
      match lookupAssoc meta "id" with
      | some (.vStr id) => id
      | _ => ""
  | _ => ""

/-- The handlers' extraction applied to raw content through a parse oracle;
`""` when the content does not parse. -/
def extractedID (parse : String → Option YamlMap) (content : String) : String :=
  match parse content with
  | some m => extractArtifactID m
  | none => ""

/-! ## Raw storage (spec §4.3; the ArtifactStorage Go source is not under src/) -/

/-- Upsert a file record keyed by `(layer, id)`: replace any previous content
under the same key. -/
def upsertFile (files : List ((Int × String) × String)) (layer : Int) (id : String)
    (content : String) : List ((Int × String) × String) :=
  ((layer, id), content) :: files.filter (fun e => e.1 ≠ (layer, id))

/-- Upsert the index entry for `(layer, id)`. -/
def upsertIndex (index : List ArtifactIndexEntry) (layer : Int) (id : String)
    (title : String) : List ArtifactIndexEntry :=
  { id := id, layer := layer, title := title } ::
    index.filter (fun e => ¬(e.id = id ∧ e.layer = layer))

/-- The title the store records in the index: `metadata.title` when it is a
string, `""` otherwise. -/
def extractArtifactTitle (m : YamlMap) : String :=
  match lookupAssoc m "metadata" with
  | some (.vMap meta) =>
      match lookupAssoc meta "title" with
      | some (.vStr title) => title
      | _ => ""
  | _ => ""

/-- Modelled from the spec: `ArtifactStorage.StoreRawYAML` (its Go source is
not under `src/`).  Per spec §4.3 it extracts `id` from the document's
metadata without requiring the full object to parse into a typed structure,
fails if the minimal `id` field is absent, persists the content byte-for-byte,
and upserts the index; on success it returns the extracted id. -/
def StoreRawYAML (parse : String → Option YamlMap) (st : ArtifactStorage)
    (layer : Int) (content : String) : Except String (String × ArtifactStorage) :=
  match parse content with
  | none => .error "failed to parse YAML"
  | some m =>
      if extractArtifactID m = "" then .error "missing metadata.id"
      else
        .ok (extractArtifactID m,
          { files := upsertFile st.files layer (extractArtifactID m) content
            index := upsertIndex st.index layer (extractArtifactID m)
              (extractArtifactTitle m) })

/-- Retrieval of the persisted raw content of `(layer, id)` (spec §4.3: the raw
path is byte-exact). -/
def retrieveRaw (st : ArtifactStorage) (layer : Int) (id : String) : Option String :=
  lookupAssoc st.files (layer, id)

/-! ## The store_layerN_yaml handlers (layer1.go, layer2.go, parser.go)

The three handlers share their logic; they differ only in the layer number and
the artifact label used in messages.  `handleStoreLayerYAML` is that shared
logic; the three named handlers instantiate it exactly as the Go functions
do. -/

/-- The error text built when CUE validation fails. -/
def validationFailureText (vr : ValidationResult) : String :=
  "CUE validation failed:\n" ++
    (if vr.Error ≠ "" then vr.Error ++ "\n" else "") ++
    (if vr.Errors.length > 0 then
      "Errors:\n" ++ String.join (vr.Errors.map (fun e => "  - " ++ e ++ "\n"))
    else "")

/-- The success text: reports the id returned by the raw store. -/
def storeSuccessText (label : String) (storedID : String) : String :=
  "Successfully stored and validated " ++ label ++ ":\n- ID: " ++ storedID ++
    "\n- CUE Validation: PASSED\n"

/-- Embedding of `handleStoreLayer{1,2,3}YAML` shared logic: require nonempty content,
validate with CUE, extract `metadata.id`, then store the raw YAML through the
disk storage if it is available. -/
def handleStoreLayerYAML (en : CUEEngine) (fetchLayer : Int → FetchOutcome)
    (fetchCommon : String → FetchOutcome) (parse : String → Option YamlMap)
    (layer : Int) (label : String) (g : GemaraAuthoringTools)
    (yamlContent : String) : ToolResult × GemaraAuthoringTools :=
  if yamlContent = "" then (.error "yaml_content is required", g)
  else
    match PerformCUEValidation en fetchLayer fetchCommon g yamlContent layer with
    | (vr, g₁) =>
      if ¬vr.Valid then (.error (validationFailureText vr), g₁)
      else
        match parse yamlContent with
        | none => (.error "Failed to parse YAML to extract metadata", g₁)
        | some m =>
            if extractArtifactID m = "" then
              (.error "YAML content must include metadata.id", g₁)
            else
              match g₁.storage with
              | none => (.error "Storage not available", g₁)
              | some st =>
                  match StoreRawYAML parse st layer yamlContent with
                  | .error e => (.error ("Failed to store YAML: " ++ e), g₁)
                  | .ok (storedID, st₁) =>
                      (.text (storeSuccessText label storedID),
                       { g₁ with storage := some st₁ })

/-- Embedding of `handleStoreLayer1YAML` (layer1.go). -/
def handleStoreLayer1YAML (en : CUEEngine) (fetchLayer : Int → FetchOutcome)
    (fetchCommon : String → FetchOutcome) (parse : String → Option YamlMap)
    (g : GemaraAuthoringTools) (yamlContent : String) :
    ToolResult × GemaraAuthoringTools :=
  handleStoreLayerYAML en fetchLayer fetchCommon parse 1 "Layer 1 Guidance"
    g yamlContent

/-- Embedding of `handleStoreLayer2YAML` (layer2.go). -/
def handleStoreLayer2YAML (en : CUEEngine) (fetchLayer : Int → FetchOutcome)
    (fetchCommon : String → FetchOutcome) (parse : String → Option YamlMap)
    (g : GemaraAuthoringTools) (yamlContent : String) :
    ToolResult × GemaraAuthoringTools :=
  handleStoreLayerYAML en fetchLayer fetchCommon parse 2 "Layer 2 Control Catalog"
    g yamlContent

/-- Embedding of `handleStoreLayer3YAML` (parser.go). -/
def handleStoreLayer3YAML (en : CUEEngine) (fetchLayer : Int → FetchOutcome)
    (fetchCommon : String → FetchOutcome) (parse : String → Option YamlMap)
    (g : GemaraAuthoringTools) (yamlContent : String) :
    ToolResult × GemaraAuthoringTools :=
  handleStoreLayerYAML en fetchLayer fetchCommon parse 3 "Layer 3 Policy"
    g yamlContent





/-! ## The concrete scenario of spec §8

Store Guidance `nist-csf` (layer 1), then a catalog stored under id
`k8s-rbac` whose single control `k8s-rbac` carries a guideline mapping with
`referenceId: nist-csf` and one weighted entry `(ID.AM-1, strength 5)`;
`demoState` adds a policy `acme-policy` referencing the control `k8s-rbac`,
the guidance `nist-csf`, and a dangling control id `ctrl-missing`. -/

def nistGuidance : GuidanceDocument :=
  { metadata :=
      { id := "nist-csf", title := "NIST CSF", author := "NIST", version := "1.1"
        documentType := "Framework", description := "Cybersecurity framework" }
    categories := [] }

def rbacControl : Control :=
  { id := "k8s-rbac", title := "Kubernetes RBAC", objective := "Restrict access"
    guidelineMappings :=
      [{ referenceId := "nist-csf"
         entries := [{ referenceId := "ID.AM-1", strength := 5, remarks := "" }] }] }

def rbacCatalog : Catalog :=
  { metadata := { id := "k8s-rbac", title := "K8s Catalog", description := "" }
    controlFamilies := [{ id := "access", title := "Access", controls := [rbacControl] }] }

def c4State : GemaraAuthoringTools :=
  { layer1Guidance := [("nist-csf", nistGuidance)]
    layer2Catalogs := [("k8s-rbac", rbacCatalog)]
    layer3Policies := []
    schemaCache := []
    storage := some { files := [], index := [] } }

def acmePolicy : PolicyDocument :=
  { metadata :=
      { id := "acme-policy", title := "Acme Policy", organizationID := "acme"
        version := "1.0", objective := "Secure the platform" }
    guidanceReferences := [{ referenceId := "nist-csf", entries := [] }]
    controlReferences :=
      [{ referenceId := "k8s-rbac", entries := [] },
       { referenceId := "ctrl-missing", entries := [] }] }

def demoState : GemaraAuthoringTools :=
  { layer1Guidance := [("nist-csf", nistGuidance)]
    layer2Catalogs := [("k8s-rbac", rbacCatalog)]
    layer3Policies := [("acme-policy", acmePolicy)]
    schemaCache := []
    storage := some { files := [], index := [] } }

/-- A fetch oracle that always answers 200 with a layer schema body. -/
def okFetchLayer : Int → FetchOutcome := fun _ => .response 200 (.ok "layer schema")

/-- A fetch oracle that always answers 200 with a common schema body. -/
def okFetchCommon : String → FetchOutcome := fun _ => .response 200 (.ok "common schema")

/-- A CUE engine whose only failing step is unification. -/
def unifyFailEngine : CUEEngine :=
  { mkdirTempErr := none, writeFileErr := fun _ => none, loadSchemaErr := none
    buildSchemaErr := none, loadDataErr := none, buildDataErr := none
    unifyErr := some "conflicting values 1 and 2", concreteErr := none }

/-- A CUE engine whose only failing step is concreteness validation. -/
def concreteFailEngine : CUEEngine :=
  { mkdirTempErr := none, writeFileErr := fun _ => none, loadSchemaErr := none
    buildSchemaErr := none, loadDataErr := none, buildDataErr := none
    unifyErr := none, concreteErr := some "metadata.title: incomplete value string" }

/-- The schema cache after a successful setup phase starting from the empty
cache with the always-succeeding fetch oracles, layer 1. -/
def setupCache : List (Int × String) :=
  [(1, "layer schema"), (-3, "common schema"), (-2, "common schema"),
   (-1, "common schema")]

/-- The raw YAML text of the §8 guidance document. -/
def demoDoc : String := "metadata:\n  id: nist-csf\n  title: NIST CSF\n"

/-- A parse oracle behaving like `yaml.Unmarshal` on the demo document. -/
def demoParse : String → Option YamlMap := fun s =>
  if s = demoDoc then
    some [("metadata", .vMap [("id", .vStr "nist-csf"), ("title", .vStr "NIST CSF")])]
  else none

/-- A CUE engine on which every step succeeds. -/
def okEngine : CUEEngine :=
  { mkdirTempErr := none, writeFileErr := fun _ => none, loadSchemaErr := none
    buildSchemaErr := none, loadDataErr := none, buildDataErr := none
    unifyErr := none, concreteErr := none }

/-- A server state whose disk storage failed to initialize. -/
def noStorageState : GemaraAuthoringTools :=
  { layer1Guidance := [], layer2Catalogs := [], layer3Policies := []
    schemaCache := [], storage := none }

/-! ## Helper lemmas and claim theorems -/

@[simp] theorem lookupAssoc_nil {κ α : Type} [DecidableEq κ] (k : κ) :
    lookupAssoc ([] : List (κ × α)) k = none := rfl

@[simp] theorem lookupAssoc_cons {κ α : Type} [DecidableEq κ] (k₀ : κ) (v₀ : α)
    (rest : List (κ × α)) (k : κ) :
    lookupAssoc ((k₀, v₀) :: rest) k =
      if k₀ = k then some v₀ else lookupAssoc rest k := rfl

/-! ## Helper lemmas -/

/-- A string with a nonempty left part is nonempty. -/
theorem append_ne_empty_left (s t : String) (h : s ≠ "") : s ++ t ≠ "" := by
  intro hc
  have hl := congrArg String.length hc
  rw [String.length_append] at hl
  simp at hl
  apply h
  have hz : s.length = 0 := hl.1
  cases s with
  | mk data =>
    cases data with
    | nil => rfl
    | cons c cs => simp [String.length, List.length] at hz

/-! ## C9 -/

/-- C9: every successful layer-1 resolution returns an empty references list
(guidance is terminal), and — independently — every successful layer-3
resolution returns an empty referencedBy list (nothing references a policy).
The two halves hold separately in every state, for every artifact id. -/
theorem layer1_terminal_layer3_root (g : GemaraAuthoringTools) (id₁ id₃ : String) :
    (∀ rel₁, buildLayer1Relationships g id₁ = .ok rel₁ → rel₁.references = []) ∧
    (∀ rel₃, buildLayer3Relationships g id₃ = .ok rel₃ → rel₃.referencedBy = []) := by
  constructor
  · intro rel₁ h₁
    unfold buildLayer1Relationships at h₁
    cases hl : lookupAssoc g.layer1Guidance id₁ with
    | none => rw [hl] at h₁; exact absurd h₁ (by simp)
    | some gd =>
        rw [hl] at h₁
        simp only [Except.ok.injEq] at h₁
        rw [← h₁]
  · intro rel₃ h₃
    unfold buildLayer3Relationships at h₃
    cases hl : lookupAssoc g.layer3Policies id₃ with
    | none => rw [hl] at h₃; exact absurd h₃ (by simp)
    | some p =>
        rw [hl] at h₃
        simp only [Except.ok.injEq] at h₃
        rw [← h₃]

/-- C9 witness: the layer-1 half discharged in a state holding guidance but no
policies, the layer-3 half in the demo state with a stored policy. -/
theorem layer1_terminal_layer3_root_witness :
    (∃ rel₁, buildLayer1Relationships c4State "nist-csf" = .ok rel₁ ∧
      rel₁.references = []) ∧
    (∃ rel₃, buildLayer3Relationships demoState "acme-policy" = .ok rel₃ ∧
      rel₃.referencedBy = []) :=
  ⟨⟨_, rfl, (layer1_terminal_layer3_root c4State "nist-csf" "acme-policy").1 _ rfl⟩,
   ⟨_, rfl, (layer1_terminal_layer3_root demoState "nist-csf" "acme-policy").2 _ rfl⟩⟩

/-! ## C4 -/

/-- C4 counterexample: in the §8 scenario the code formats referencedBy
entries as `catalogID:controlID (Layer 2)`, so the list claimed by the spec,
`["k8s-rbac (Layer 2)"]`, is not returned. -/
theorem nist_scenario_referencedBy_format :
    ¬ ∃ rel, buildLayer1Relationships c4State "nist-csf" = .ok rel ∧
        rel.referencedBy = ["k8s-rbac (Layer 2)"] := by
  rintro ⟨rel, h, hrb⟩
  have heval : buildLayer1Relationships c4State "nist-csf" =
      .ok { artifactID := "nist-csf", artifactType := "layer1", title := "NIST CSF"
            referencedBy := ["k8s-rbac:k8s-rbac (Layer 2)"], references := []
            details := [("author", "NIST"), ("version", "1.1"),
                        ("document_type", "Framework"), ("guideline_count", "0")] } := by
    rfl
  rw [heval] at h
  simp only [Except.ok.injEq] at h
  rw [← h] at hrb
  exact absurd hrb (by decide)

/-- C4 (amended): in the §8 scenario, `resolve("nist-csf", 1)` returns
`referencedBy = ["k8s-rbac:k8s-rbac (Layer 2)"]` — the referencing control
prefixed by the id of the catalog that stores it. -/
theorem nist_scenario_referencedBy :
    ∃ rel, buildLayer1Relationships c4State "nist-csf" = .ok rel ∧
      rel.referencedBy = ["k8s-rbac:k8s-rbac (Layer 2)"] :=
  ⟨_, rfl, rfl⟩

/-! ## C7 -/

/-- C7: `PerformCUEValidation` is a pure check with respect to artifact state:
it leaves the in-memory layer caches and the disk storage untouched for every
input and every behaviour of the fetch/CUE oracles. -/
theorem validation_preserves_artifact_state (en : CUEEngine)
    (fetchLayer : Int → FetchOutcome) (fetchCommon : String → FetchOutcome)
    (g : GemaraAuthoringTools) (yamlContent : String) (layer : Int) :
    ((PerformCUEValidation en fetchLayer fetchCommon g yamlContent layer).2).layer1Guidance =
        g.layer1Guidance ∧
    ((PerformCUEValidation en fetchLayer fetchCommon g yamlContent layer).2).layer2Catalogs =
        g.layer2Catalogs ∧
    ((PerformCUEValidation en fetchLayer fetchCommon g yamlContent layer).2).layer3Policies =
        g.layer3Policies ∧
    ((PerformCUEValidation en fetchLayer fetchCommon g yamlContent layer).2).storage =
        g.storage := by
  refine ⟨rfl, rfl, rfl, rfl⟩

/-! ## C10 -/

/-- Every error message produced by one common-schema load/write step is
nonempty. -/
theorem loadAndWriteCommonSchema_error_ne_empty (en : CUEEngine)
    (fc : String → FetchOutcome) (name : String) (cache : List (Int × String))
    (e : String) (c : List (Int × String))
    (h : loadAndWriteCommonSchema en fc name cache = (some e, c)) : e ≠ "" := by
  unfold loadAndWriteCommonSchema at h
  split at h
  · simp only [Prod.mk.injEq] at h
    rw [← Option.some.inj h.1]
    exact append_ne_empty_left _ _
      (append_ne_empty_left _ _ (append_ne_empty_left _ _ (by decide)))
  · split at h
    · simp only [Prod.mk.injEq] at h
      rw [← Option.some.inj h.1]
      exact append_ne_empty_left _ _
        (append_ne_empty_left _ _ (append_ne_empty_left _ _ (by decide)))
    · exact absurd h (by simp)

/-- Every error message produced by the common-schema loop is nonempty. -/
theorem loadAndWriteCommonSchemas_error_ne_empty (en : CUEEngine)
    (fc : String → FetchOutcome) (names : List String) (cache : List (Int × String))
    (e : String) (c : List (Int × String))
    (h : loadAndWriteCommonSchemas en fc names cache = (some e, c)) : e ≠ "" := by
  induction names generalizing cache with
  | nil => exact absurd h (by simp [loadAndWriteCommonSchemas])
  | cons name rest ih =>
      unfold loadAndWriteCommonSchemas at h
      split at h
      · simp only [Prod.mk.injEq] at h
        rename_i e₁ c₁ heq
        exact (Option.some.inj h.1) ▸
          loadAndWriteCommonSchema_error_ne_empty en fc name cache e₁ c₁ heq
      · exact ih _ h

/-- Every error message produced by the setup phase is nonempty. -/
theorem setupValidationFiles_error_ne_empty (en : CUEEngine)
    (fl : Int → FetchOutcome) (fc : String → FetchOutcome)
    (cache : List (Int × String)) (layer : Int) (e : String)
    (c : List (Int × String))
    (h : setupValidationFiles en fl fc cache layer = (some e, c)) : e ≠ "" := by
  unfold setupValidationFiles at h
  split at h
  · simp only [Prod.mk.injEq] at h
    rw [← Option.some.inj h.1]
    exact append_ne_empty_left _ _ (by decide)
  · split at h
    · simp only [Prod.mk.injEq] at h
      rename_i e₁ c₁ heq
      exact (Option.some.inj h.1) ▸
        loadAndWriteCommonSchemas_error_ne_empty en fc commonSchemas _ e₁ c₁ heq
    · split at h
      · simp only [Prod.mk.injEq] at h
        rw [← Option.some.inj h.1]
        exact append_ne_empty_left _ _
          (append_ne_empty_left _ _ (append_ne_empty_left _ _ (by decide)))
      · split at h
        · simp only [Prod.mk.injEq] at h
          rw [← Option.some.inj h.1]
          exact append_ne_empty_left _ _ (by decide)
        · split at h
          · simp only [Prod.mk.injEq] at h
            rw [← Option.some.inj h.1]
            exact append_ne_empty_left _ _ (by decide)
          · exact absurd h (by simp)

/-- The C10 invariant, stated on the cache-level validation function. -/
theorem validationResult_invariant_cache (en : CUEEngine)
    (fl : Int → FetchOutcome) (fc : String → FetchOutcome)
    (cache : List (Int × String)) (layer : Int) :
    (((performCUEValidationCache en fl fc cache layer).1.Valid = true →
        (performCUEValidationCache en fl fc cache layer).1.Error = "" ∧
        (performCUEValidationCache en fl fc cache layer).1.Errors = []) ∧
     ((performCUEValidationCache en fl fc cache layer).1.Valid = false →
        (performCUEValidationCache en fl fc cache layer).1.Error ≠ "")) := by
  unfold performCUEValidationCache
  cases hs : setupValidationFiles en fl fc cache layer with
  | mk o c₁ =>
    cases o with
    | some e =>
        refine ⟨by simp [vfail], ?_⟩
        intro _
        simpa [vfail] using setupValidationFiles_error_ne_empty en fl fc cache layer e c₁ hs
    | none =>
        cases en.loadSchemaErr with
        | some e => exact ⟨by simp [vfail], fun _ => by
            simpa [vfail] using append_ne_empty_left "Failed to load schema: " e (by decide)⟩
        | none =>
        cases en.buildSchemaErr with
        | some e => exact ⟨by simp [vfail], fun _ => by
            simpa [vfail] using append_ne_empty_left "Failed to build schema: " e (by decide)⟩
        | none =>
        cases en.loadDataErr with
        | some e => exact ⟨by simp [vfail], fun _ => by
            simpa [vfail] using append_ne_empty_left "Failed to load data: " e (by decide)⟩
        | none =>
        cases en.buildDataErr with
        | some e => exact ⟨by simp [vfail], fun _ => by
            simpa [vfail] using append_ne_empty_left "Failed to build data instance: " e (by decide)⟩
        | none =>
        cases en.unifyErr with
        | some e => exact ⟨by simp [vfail], fun _ => by
            simpa [vfail] using append_ne_empty_left "Schema unification failed: " e (by decide)⟩
        | none =>
        cases en.concreteErr with
        | some e => exact ⟨by simp, fun _ => by
            simpa using append_ne_empty_left "Validation failed: " e (by decide)⟩
        | none => exact ⟨fun _ => ⟨rfl, rfl⟩, by simp⟩

/-- C10: every `ValidationResult` returned by `PerformCUEValidation` satisfies
the invariant: `Valid = true` implies the primary error is empty and the
detail-error list is empty, and `Valid = false` implies the primary error is a
nonempty message. -/
theorem validation_result_invariant (en : CUEEngine)
    (fl : Int → FetchOutcome) (fc : String → FetchOutcome)
    (g : GemaraAuthoringTools) (yamlContent : String) (layer : Int) :
    (((PerformCUEValidation en fl fc g yamlContent layer).1.Valid = true →
        (PerformCUEValidation en fl fc g yamlContent layer).1.Error = "" ∧
        (PerformCUEValidation en fl fc g yamlContent layer).1.Errors = []) ∧
     ((PerformCUEValidation en fl fc g yamlContent layer).1.Valid = false →
        (PerformCUEValidation en fl fc g yamlContent layer).1.Error ≠ "")) := by
  have h := validationResult_invariant_cache en fl fc g.schemaCache layer
  simpa [PerformCUEValidation] using h

/-- C10 witness: the invariant discharged at concrete engines — a valid run
(empty error, empty detail list) and an invalid run (nonempty error). -/
theorem validation_result_invariant_witness :
    ((PerformCUEValidation okEngine okFetchLayer okFetchCommon demoState
        "metadata: {}" 1).1.Error = "" ∧
     (PerformCUEValidation okEngine okFetchLayer okFetchCommon demoState
        "metadata: {}" 1).1.Errors = []) ∧
    (PerformCUEValidation unifyFailEngine okFetchLayer okFetchCommon demoState
        "metadata: {}" 1).1.Error ≠ "" :=
  ⟨(validation_result_invariant okEngine okFetchLayer okFetchCommon demoState
      "metadata: {}" 1).1 rfl,
   (validation_result_invariant unifyFailEngine okFetchLayer okFetchCommon demoState
      "metadata: {}" 1).2 rfl⟩

/-! ## C3 -/

/-- A control found in a family list is a member of one of the families and
has the searched id. -/
theorem findControlInFamilies_mem (families : List ControlFamily) (cid : String)
    (c : Control) (h : findControlInFamilies families cid = some c) :
    ∃ fam, fam ∈ families ∧ c ∈ fam.controls ∧ c.id = cid := by
  unfold findControlInFamilies at h
  obtain ⟨fam, hfam, hfind⟩ := List.exists_of_findSome?_eq_some h
  refine ⟨fam, hfam, List.mem_of_find?_eq_some hfind, ?_⟩
  have := List.find?_some hfind
  exact eq_of_beq this

/-- A control found in the catalog map is a member of a family of the catalog
stored under the returned catalog id, and has the searched id. -/
theorem findControlInCatalogs_mem (catalogs : List (String × Catalog))
    (cid : String) (catID : String) (c : Control)
    (h : findControlInCatalogs catalogs cid = some (catID, c)) :
    ∃ cat, (catID, cat) ∈ catalogs ∧
      ∃ fam, fam ∈ cat.controlFamilies ∧ c ∈ fam.controls ∧ c.id = cid := by
  unfold findControlInCatalogs at h
  obtain ⟨p, hp, hfind⟩ := List.exists_of_findSome?_eq_some h
  rw [Option.map_eq_some'] at hfind
  obtain ⟨c₁, hc₁, heq⟩ := hfind
  obtain ⟨h₁, h₂⟩ := Prod.mk.injEq .. ▸ heq
  obtain ⟨fam, hfam, hc, hid⟩ := findControlInFamilies_mem _ _ _ hc₁
  subst h₂
  exact ⟨p.2, h₁ ▸ hp, fam, hfam, hc, hid⟩

/-- C3: if a stored control `C` carries a guideline mapping whose `referenceId`
is the id of a stored guidance `G`, then resolving `G` at layer 1 lists `C`
(with its catalog prefix) in `referencedBy`, and resolving `C` at layer 2
lists `G` in `references` annotated as resolved (no NOT FOUND marker). -/
theorem bidirectional_relationship (g : GemaraAuthoringTools)
    (catalogID gid : String) (C : Control) (G : GuidanceDocument) (m : Mapping)
    (hfind : findControlInCatalogs g.layer2Catalogs C.id = some (catalogID, C))
    (hm : m ∈ C.guidelineMappings) (hmref : m.referenceId = gid)
    (hgid : gid ≠ "")
    (hG : lookupAssoc g.layer1Guidance gid = some G) :
    (∃ rel₁, buildLayer1Relationships g gid = .ok rel₁ ∧
       (catalogID ++ ":" ++ C.id ++ " (Layer 2)") ∈ rel₁.referencedBy) ∧
    (∃ rel₂, buildLayer2Relationships g C.id = .ok rel₂ ∧
       (gid ++ " (Layer 1)") ∈ rel₂.references) := by
  have hCref : controlReferencesLayer1 C gid = true := by
    unfold controlReferencesLayer1
    rw [List.any_eq_true]
    exact ⟨m, hm, by rw [hmref]; exact beq_self_eq_true gid⟩
  constructor
  · obtain ⟨cat, hcat, fam, hfam, hC, _⟩ := findControlInCatalogs_mem _ _ _ _ hfind
    refine ⟨_, by rw [buildLayer1Relationships, hG], ?_⟩
    rw [List.mem_flatten]
    refine ⟨catalogReferencingControls catalogID cat gid,
      List.mem_map.mpr ⟨(catalogID, cat), hcat, rfl⟩, ?_⟩
    unfold catalogReferencingControls
    rw [List.mem_flatten]
    refine ⟨(fam.controls.filter (fun c => controlReferencesLayer1 c gid)).map
      (fun c => catalogID ++ ":" ++ c.id ++ " (Layer 2)"),
      List.mem_map.mpr ⟨fam, hfam, rfl⟩, ?_⟩
    exact List.mem_map.mpr ⟨C, List.mem_filter.mpr ⟨hC, hCref⟩, rfl⟩
  · refine ⟨_, by rw [buildLayer2Relationships, hfind], ?_⟩
    rw [List.mem_filterMap]
    refine ⟨m, hm, ?_⟩
    rw [hmref]
    simp [hgid, hG]

/-- C3 witness: the theorem applied to the demo scenario (guidance `nist-csf`,
control `k8s-rbac` in catalog `k8s-rbac`). -/
theorem bidirectional_relationship_witness :
    (∃ rel₁, buildLayer1Relationships demoState "nist-csf" = .ok rel₁ ∧
       ("k8s-rbac" ++ ":" ++ rbacControl.id ++ " (Layer 2)") ∈ rel₁.referencedBy) ∧
    (∃ rel₂, buildLayer2Relationships demoState rbacControl.id = .ok rel₂ ∧
       ("nist-csf" ++ " (Layer 1)") ∈ rel₂.references) :=
  bidirectional_relationship demoState "k8s-rbac" "nist-csf" rbacControl
    nistGuidance { referenceId := "nist-csf"
                   entries := [{ referenceId := "ID.AM-1", strength := 5, remarks := "" }] }
    (by rfl) (by simp [rbacControl]) rfl (by decide) (by rfl)

/-! ## C2 -/

/-- C2: with a valid `artifact_type`, `get_artifact_relationships` returns an
error result exactly when the source id is absent from its layer; a missing
reference target never fails resolution and instead yields an edge annotated
NOT FOUND — resolving a policy that references a nonexistent control id
succeeds and includes the unresolved edge. -/
theorem relationship_resolution_totality (g : GemaraAuthoringTools)
    (artifactID outputFormat : String) (hid : artifactID ≠ "") :
    ((handleGetArtifactRelationships g artifactID "layer1" outputFormat).isError = true ↔
       lookupAssoc g.layer1Guidance artifactID = none) ∧
    ((handleGetArtifactRelationships g artifactID "layer2" outputFormat).isError = true ↔
       findControlInCatalogs g.layer2Catalogs artifactID = none) ∧
    ((handleGetArtifactRelationships g artifactID "layer3" outputFormat).isError = true ↔
       lookupAssoc g.layer3Policies artifactID = none) ∧
    (∀ policy ref, lookupAssoc g.layer3Policies artifactID = some policy →
       ref ∈ policy.controlReferences → ref.referenceId ≠ "" →
       findControlInCatalogs g.layer2Catalogs ref.referenceId = none →
       ∃ rel, buildLayer3Relationships g artifactID = .ok rel ∧
         (ref.referenceId ++ " (Layer 2 - CONTROL NOT FOUND)") ∈ rel.references) ∧
    (∀ policy ref, lookupAssoc g.layer3Policies artifactID = some policy →
       ref ∈ policy.guidanceReferences → ref.referenceId ≠ "" →
       lookupAssoc g.layer1Guidance ref.referenceId = none →
       ∃ rel, buildLayer3Relationships g artifactID = .ok rel ∧
         (ref.referenceId ++ " (Layer 1 - NOT FOUND)") ∈ rel.references) := by
  refine ⟨?_, ?_, ?_, ?_, ?_⟩
  · unfold handleGetArtifactRelationships
    cases hl : lookupAssoc g.layer1Guidance artifactID with
    | none => simp [hid, buildLayer1Relationships, hl, ToolResult.isError]
    | some gd => simp [hid, buildLayer1Relationships, hl, ToolResult.isError]
  · unfold handleGetArtifactRelationships
    cases hf : findControlInCatalogs g.layer2Catalogs artifactID with
    | none => simp [hid, buildLayer2Relationships, hf, ToolResult.isError]
    | some p => simp [hid, buildLayer2Relationships, hf, ToolResult.isError]
  · unfold handleGetArtifactRelationships
    cases hl : lookupAssoc g.layer3Policies artifactID with
    | none => simp [hid, buildLayer3Relationships, hl, ToolResult.isError]
    | some p => simp [hid, buildLayer3Relationships, hl, ToolResult.isError]
  · intro policy ref hpol href hne hmiss
    refine ⟨_, by rw [buildLayer3Relationships, hpol], ?_⟩
    apply List.mem_append_right
    rw [List.mem_filterMap]
    exact ⟨ref, href, by simp [hne, hmiss]⟩
  · intro policy ref hpol href hne hmiss
    refine ⟨_, by rw [buildLayer3Relationships, hpol], ?_⟩
    apply List.mem_append_left
    rw [List.mem_filterMap]
    exact ⟨ref, href, by simp [hne, hmiss]⟩

/-- C2 witness: in the demo scenario the policy `acme-policy` references the
nonexistent control `ctrl-missing`; resolution of the policy succeeds and
carries the NOT FOUND edge, and resolution of an unknown policy id errors. -/
theorem relationship_resolution_totality_witness :
    ((handleGetArtifactRelationships demoState "no-such-policy" "layer3" "yaml").isError =
        true ↔ lookupAssoc demoState.layer3Policies "no-such-policy" = none) ∧
    (∃ rel, buildLayer3Relationships demoState "acme-policy" = .ok rel ∧
       ("ctrl-missing" ++ " (Layer 2 - CONTROL NOT FOUND)") ∈ rel.references) := by
  constructor
  · exact (relationship_resolution_totality demoState "no-such-policy" "yaml"
      (by decide)).2.2.1
  · exact (relationship_resolution_totality demoState "acme-policy" "yaml"
      (by decide)).2.2.2.1 acmePolicy
      { referenceId := "ctrl-missing", entries := [] }
      (by rfl) (by simp [acmePolicy]) (by decide) (by rfl)

/-! ## C1 -/



/-- C1 counterexample: on a schema unification failure the returned result is
invalid with a primary error but an empty detail-error list — the unification
failure class does not populate `Errors`. -/
theorem unify_failure_empty_detail_errors :
    ((PerformCUEValidation unifyFailEngine okFetchLayer okFetchCommon demoState
        "metadata: {}" 1).1.Valid = false) ∧
    ((PerformCUEValidation unifyFailEngine okFetchLayer okFetchCommon demoState
        "metadata: {}" 1).1.Error =
      "Schema unification failed: conflicting values 1 and 2") ∧
    ((PerformCUEValidation unifyFailEngine okFetchLayer okFetchCommon demoState
        "metadata: {}" 1).1.Errors = []) :=
  ⟨rfl, rfl, rfl⟩

/-- C1 (amended): a unification failure yields an invalid result whose primary
error carries the diagnostic while the detail-error list stays empty; a
concreteness failure yields an invalid result with at least one diagnostic in
the detail-error list; and `valid = true` only when both the unification and
the concreteness step succeed. -/
theorem validation_failure_classes (en : CUEEngine) (fl : Int → FetchOutcome)
    (fc : String → FetchOutcome) (cache : List (Int × String)) (layer : Int) :
    (∀ e c₁, setupValidationFiles en fl fc cache layer = (none, c₁) →
       en.loadSchemaErr = none → en.buildSchemaErr = none →
       en.loadDataErr = none → en.buildDataErr = none →
       en.unifyErr = some e →
       (performCUEValidationCache en fl fc cache layer).1 =
         vfail ("Schema unification failed: " ++ e)) ∧
    (∀ e c₁, setupValidationFiles en fl fc cache layer = (none, c₁) →
       en.loadSchemaErr = none → en.buildSchemaErr = none →
       en.loadDataErr = none → en.buildDataErr = none →
       en.unifyErr = none → en.concreteErr = some e →
       (performCUEValidationCache en fl fc cache layer).1 =
         { Valid := false, Error := "Validation failed: " ++ e, Errors := [e] }) ∧
    ((performCUEValidationCache en fl fc cache layer).1.Valid = true →
       en.unifyErr = none ∧ en.concreteErr = none) := by
  refine ⟨?_, ?_, ?_⟩
  · intro e c₁ hs h1 h2 h3 h4 h5
    unfold performCUEValidationCache
    rw [hs, h1, h2, h3, h4, h5]
  · intro e c₁ hs h1 h2 h3 h4 h5 h6
    unfold performCUEValidationCache
    rw [hs, h1, h2, h3, h4, h5, h6]
    rfl
  · intro hv
    unfold performCUEValidationCache at hv
    split at hv
    · simp [vfail] at hv
    · split at hv
      · simp [vfail] at hv
      · split at hv
        · simp [vfail] at hv
        · split at hv
          · simp [vfail] at hv
          · split at hv
            · simp [vfail] at hv
            · split at hv
              · simp [vfail] at hv
              · split at hv
                · simp at hv
                · exact ⟨by assumption, by assumption⟩

/-- C1 witness: both failure classes exercised on concrete engines; the
unification class leaves the detail list empty, the concreteness class puts
the diagnostic into it. -/
theorem validation_failure_classes_witness :
    ((performCUEValidationCache unifyFailEngine okFetchLayer okFetchCommon [] 1).1 =
       vfail ("Schema unification failed: " ++ "conflicting values 1 and 2")) ∧
    ((performCUEValidationCache concreteFailEngine okFetchLayer okFetchCommon [] 1).1 =
       { Valid := false
         Error := "Validation failed: " ++ "metadata.title: incomplete value string"
         Errors := ["metadata.title: incomplete value string"] }) :=
  ⟨(validation_failure_classes unifyFailEngine okFetchLayer okFetchCommon [] 1).1
      "conflicting values 1 and 2" setupCache rfl rfl rfl rfl rfl rfl,
   (validation_failure_classes concreteFailEngine okFetchLayer okFetchCommon [] 1).2.1
      "metadata.title: incomplete value string" setupCache rfl rfl rfl rfl rfl rfl rfl⟩

/-! ## C6 -/

/-- C6: for both schema fetch paths — a cache hit returns the cached copy
without consulting the fetch oracle and leaves the cache unchanged; a cache
miss with a successful fetch stores the body under the schema's key, and any
subsequent call returns that cached copy for every fetch oracle; a failed
fetch (transport error, non-200 status, or body read error) returns an error
and leaves the cache exactly unchanged, so the next call fetches again. -/
theorem schema_cache_contract (cache : List (Int × String)) :
    (∀ (layer : Int) (fl : Int → FetchOutcome),
      (∀ s, lookupAssoc cache layer = some s →
         getCUESchema fl cache layer = (.ok s, cache)) ∧
      (∀ body, lookupAssoc cache layer = none →
         fl layer = .response 200 (.ok body) →
         getCUESchema fl cache layer = (.ok body, (layer, body) :: cache) ∧
         ∀ fl₂, getCUESchema fl₂ ((layer, body) :: cache) layer =
           (.ok body, (layer, body) :: cache)) ∧
      (lookupAssoc cache layer = none →
         (∀ e, fl layer = .transportError e →
            getCUESchema fl cache layer =
              (.error ("failed to fetch schema from " ++ layerSchemaURL layer ++
                ": " ++ e), cache)) ∧
         (∀ st body, fl layer = .response st body → st ≠ 200 →
            getCUESchema fl cache layer =
              (.error ("failed to fetch schema: HTTP " ++ toString st), cache)) ∧
         (∀ e, fl layer = .response 200 (.error e) →
            getCUESchema fl cache layer =
              (.error ("failed to read schema: " ++ e), cache)))) ∧
    (∀ (name : String) (fc : String → FetchOutcome),
      (∀ s, lookupAssoc cache (commonSchemaCacheKey name) = some s →
         getCommonCUESchema fc cache name = (.ok s, cache)) ∧
      (∀ body, lookupAssoc cache (commonSchemaCacheKey name) = none →
         fc name = .response 200 (.ok body) →
         getCommonCUESchema fc cache name =
           (.ok body, (commonSchemaCacheKey name, body) :: cache) ∧
         ∀ fc₂, getCommonCUESchema fc₂ ((commonSchemaCacheKey name, body) :: cache)
             name = (.ok body, (commonSchemaCacheKey name, body) :: cache)) ∧
      (lookupAssoc cache (commonSchemaCacheKey name) = none →
         (∀ e, fc name = .transportError e →
            getCommonCUESchema fc cache name =
              (.error ("failed to fetch schema from " ++ commonSchemaURL name ++
                ": " ++ e), cache)) ∧
         (∀ st body, fc name = .response st body → st ≠ 200 →
            getCommonCUESchema fc cache name =
              (.error ("failed to fetch schema: HTTP " ++ toString st), cache)) ∧
         (∀ e, fc name = .response 200 (.error e) →
            getCommonCUESchema fc cache name =
              (.error ("failed to read schema: " ++ e), cache)))) := by
  constructor
  · intro layer fl
    refine ⟨?_, ?_, ?_⟩
    · intro s hs
      unfold getCUESchema
      rw [hs]
    · intro body hmiss hfl
      constructor
      · unfold getCUESchema
        rw [hmiss, hfl]
        simp
      · intro fl₂
        unfold getCUESchema
        simp
    · intro hmiss
      refine ⟨?_, ?_, ?_⟩
      · intro e hfl
        unfold getCUESchema
        rw [hmiss, hfl]
      · intro st body hfl hst
        unfold getCUESchema
        rw [hmiss, hfl]
        simp [hst]
      · intro e hfl
        unfold getCUESchema
        rw [hmiss, hfl]
        simp
  · intro name fc
    refine ⟨?_, ?_, ?_⟩
    · intro s hs
      unfold getCommonCUESchema
      rw [hs]
    · intro body hmiss hfc
      constructor
      · unfold getCommonCUESchema
        rw [hmiss, hfc]
        simp
      · intro fc₂
        unfold getCommonCUESchema
        simp
    · intro hmiss
      refine ⟨?_, ?_, ?_⟩
      · intro e hfc
        unfold getCommonCUESchema
        rw [hmiss, hfc]
      · intro st body hfc hst
        unfold getCommonCUESchema
        rw [hmiss, hfc]
        simp [hst]
      · intro e hfc
        unfold getCommonCUESchema
        rw [hmiss, hfc]
        simp

/-- C6 witness: on the empty cache, a failing fetch for layer 7 returns an
error and leaves the cache empty, after which a succeeding fetch stores the
schema; the subsequent call returns the cached copy under a fetch oracle that
always fails. -/
theorem schema_cache_contract_witness :
    (getCUESchema (fun _ => .transportError "dial tcp: timeout")
       ([] : List (Int × String)) 7 =
      (.error ("failed to fetch schema from " ++ layerSchemaURL 7 ++ ": " ++
        "dial tcp: timeout"), [])) ∧
    (getCUESchema okFetchLayer ([] : List (Int × String)) 7 =
      (.ok "layer schema", [(7, "layer schema")]) ∧
     ∀ fl₂, getCUESchema fl₂ [(7, "layer schema")] 7 =
       (.ok "layer schema", [(7, "layer schema")])) ∧
    (getCommonCUESchema okFetchCommon ([] : List (Int × String)) "base.cue" =
      (.ok "common schema", [(commonSchemaCacheKey "base.cue", "common schema")])) :=
  ⟨((schema_cache_contract []).1 7 (fun _ => .transportError "dial tcp: timeout")).2.2
      (by rfl) |>.1 "dial tcp: timeout" rfl,
   ((schema_cache_contract []).1 7 okFetchLayer).2.1 "layer schema" (by rfl) rfl,
   (((schema_cache_contract []).2 "base.cue" okFetchCommon).2.1 "common schema"
      (by rfl) rfl).1⟩

/-! ## C8 -/

/-- C8: storing a document whose metadata id is `x` through the raw write path
and retrieving `x` from the same layer returns the content byte-for-byte. -/
theorem storeRaw_retrieve_roundtrip (parse : String → Option YamlMap)
    (st : ArtifactStorage) (layer : Int) (d : String) (m : YamlMap) (x : String)
    (hp : parse d = some m) (hx : extractArtifactID m = x) (hne : x ≠ "") :
    ∃ st₁, StoreRawYAML parse st layer d = .ok (x, st₁) ∧
      retrieveRaw st₁ layer x = some d := by
  unfold StoreRawYAML
  rw [hp]
  dsimp only
  rw [hx, if_neg hne]
  refine ⟨_, rfl, ?_⟩
  unfold retrieveRaw upsertFile
  simp



/-- C8 witness: the round trip on the demo document from the empty store. -/
theorem storeRaw_retrieve_roundtrip_witness :
    ∃ st₁, StoreRawYAML demoParse { files := [], index := [] } 1 demoDoc =
        .ok ("nist-csf", st₁) ∧
      retrieveRaw st₁ 1 "nist-csf" = some demoDoc :=
  storeRaw_retrieve_roundtrip demoParse { files := [], index := [] } 1 demoDoc
    [("metadata", .vMap [("id", .vStr "nist-csf"), ("title", .vStr "NIST CSF")])]
    "nist-csf" (by rfl) (by rfl) (by decide)

/-! ## C5 -/



/-- C5 counterexample: when the disk storage is unavailable, a document that
passes CUE validation and carries a metadata id is still rejected with an
error and nothing is persisted — refuting the claim's unconditional
"otherwise the content is persisted". -/
theorem store_without_storage_not_persisted :
    ((PerformCUEValidation okEngine okFetchLayer okFetchCommon noStorageState
        demoDoc 1).1.Valid = true) ∧
    (extractedID demoParse demoDoc = "nist-csf") ∧
    ((handleStoreLayer1YAML okEngine okFetchLayer okFetchCommon demoParse
        noStorageState demoDoc).1 = .error "Storage not available") ∧
    ((handleStoreLayer1YAML okEngine okFetchLayer okFetchCommon demoParse
        noStorageState demoDoc).2.storage = none) :=
  ⟨rfl, rfl, rfl, rfl⟩

/-- C5 (amended): if CUE validation fails or the content lacks a string
`metadata.id`, the store handler returns an error result and the artifact
maps and disk storage are unchanged; otherwise — provided the disk storage is
available — the content is persisted byte-for-byte under the extracted id,
the handler reports that id, and the artifact maps are unchanged. -/
theorem store_layer_yaml_contract (en : CUEEngine) (fl : Int → FetchOutcome)
    (fc : String → FetchOutcome) (parse : String → Option YamlMap)
    (layer : Int) (label : String) (g : GemaraAuthoringTools)
    (yamlContent : String) (hparse0 : parse "" = none) :
    ((¬ (PerformCUEValidation en fl fc g yamlContent layer).1.Valid = true ∨
        extractedID parse yamlContent = "") →
      ((handleStoreLayerYAML en fl fc parse layer label g yamlContent).1.isError =
          true ∧
       (handleStoreLayerYAML en fl fc parse layer label g yamlContent).2.layer1Guidance =
          g.layer1Guidance ∧
       (handleStoreLayerYAML en fl fc parse layer label g yamlContent).2.layer2Catalogs =
          g.layer2Catalogs ∧
       (handleStoreLayerYAML en fl fc parse layer label g yamlContent).2.layer3Policies =
          g.layer3Policies ∧
       (handleStoreLayerYAML en fl fc parse layer label g yamlContent).2.storage =
          g.storage)) ∧
    (∀ st, g.storage = some st →
      (PerformCUEValidation en fl fc g yamlContent layer).1.Valid = true →
      extractedID parse yamlContent ≠ "" →
      ∃ st₁,
        (handleStoreLayerYAML en fl fc parse layer label g yamlContent).1 =
          .text (storeSuccessText label (extractedID parse yamlContent)) ∧
        (handleStoreLayerYAML en fl fc parse layer label g yamlContent).2.storage =
          some st₁ ∧
        retrieveRaw st₁ layer (extractedID parse yamlContent) = some yamlContent ∧
        (handleStoreLayerYAML en fl fc parse layer label g yamlContent).2.layer1Guidance =
          g.layer1Guidance ∧
        (handleStoreLayerYAML en fl fc parse layer label g yamlContent).2.layer2Catalogs =
          g.layer2Catalogs ∧
        (handleStoreLayerYAML en fl fc parse layer label g yamlContent).2.layer3Policies =
          g.layer3Policies) := by
  constructor
  · intro hbad
    by_cases hyc : yamlContent = ""
    · subst hyc
      simp [handleStoreLayerYAML, ToolResult.isError]
    · unfold handleStoreLayerYAML
      rw [if_neg hyc]
      cases hpe : PerformCUEValidation en fl fc g yamlContent layer with
      | mk vr g₁ =>
        have hg₁ : g₁.layer1Guidance = g.layer1Guidance ∧
            g₁.layer2Catalogs = g.layer2Catalogs ∧
            g₁.layer3Policies = g.layer3Policies ∧
            g₁.storage = g.storage := by
          have h2 : g₁ = (PerformCUEValidation en fl fc g yamlContent layer).2 := by
            rw [hpe]
          rw [h2]
          exact ⟨rfl, rfl, rfl, rfl⟩
        cases hvv : vr.Valid with
        | false =>
            simp only [hvv]
            simp [ToolResult.isError, hg₁.1, hg₁.2.1, hg₁.2.2.1, hg₁.2.2.2]
        | true =>
            have hex : extractedID parse yamlContent = "" := by
              rcases hbad with hb | hb
              · exfalso
                apply hb
                rw [hpe]
                exact hvv
              · exact hb
            simp only [hvv]
            cases hpc : parse yamlContent with
            | none =>
                simp [ToolResult.isError, hg₁.1, hg₁.2.1, hg₁.2.2.1, hg₁.2.2.2]
            | some m =>
                have hm : extractArtifactID m = "" := by
                  unfold extractedID at hex
                  rw [hpc] at hex
                  exact hex
                simp [hm, ToolResult.isError, hg₁.1, hg₁.2.1, hg₁.2.2.1, hg₁.2.2.2]
  · intro st hst hvalid hne
    have hyc : yamlContent ≠ "" := by
      intro h
      apply hne
      rw [h]
      unfold extractedID
      rw [hparse0]
    unfold handleStoreLayerYAML
    rw [if_neg hyc]
    cases hpe : PerformCUEValidation en fl fc g yamlContent layer with
    | mk vr g₁ =>
      have hg₁ : g₁.layer1Guidance = g.layer1Guidance ∧
          g₁.layer2Catalogs = g.layer2Catalogs ∧
          g₁.layer3Policies = g.layer3Policies ∧
          g₁.storage = g.storage := by
        have h2 : g₁ = (PerformCUEValidation en fl fc g yamlContent layer).2 := by
          rw [hpe]
        rw [h2]
        exact ⟨rfl, rfl, rfl, rfl⟩
      have hvv : vr.Valid = true := by
        rw [hpe] at hvalid
        exact hvalid
      cases hpc : parse yamlContent with
      | none =>
          exfalso
          apply hne
          unfold extractedID
          rw [hpc]
      | some m =>
          have hm : extractArtifactID m ≠ "" := by
            intro h
            apply hne
            unfold extractedID
            rw [hpc]
            exact h
          have hext : extractedID parse yamlContent = extractArtifactID m := by
            unfold extractedID
            rw [hpc]
          have hsto : g₁.storage = some st := by rw [hg₁.2.2.2]; exact hst
          simp only [hvv, hsto, StoreRawYAML, hpc, not_true_eq_false, if_false,
            if_neg hm, ite_false]
          refine ⟨{ files := upsertFile st.files layer (extractArtifactID m) yamlContent
                    index := upsertIndex st.index layer (extractArtifactID m)
                      (extractArtifactTitle m) }, ?_, rfl, ?_, hg₁.1, hg₁.2.1, hg₁.2.2.1⟩
          · rw [hext]
          · rw [hext]
            unfold retrieveRaw upsertFile
            simp

/-- C5 witness: the contract applied to the demo document, an all-success
engine and a state with available storage: the document is persisted and the
handler reports the extracted id. -/
theorem store_layer_yaml_contract_witness :
    ∃ st₁,
      (handleStoreLayerYAML okEngine okFetchLayer okFetchCommon demoParse 1
        "Layer 1 Guidance" demoState demoDoc).1 =
        .text (storeSuccessText "Layer 1 Guidance" (extractedID demoParse demoDoc)) ∧
      (handleStoreLayerYAML okEngine okFetchLayer okFetchCommon demoParse 1
        "Layer 1 Guidance" demoState demoDoc).2.storage = some st₁ ∧
      retrieveRaw st₁ 1 (extractedID demoParse demoDoc) = some demoDoc ∧
      (handleStoreLayerYAML okEngine okFetchLayer okFetchCommon demoParse 1
        "Layer 1 Guidance" demoState demoDoc).2.layer1Guidance =
        demoState.layer1Guidance ∧
      (handleStoreLayerYAML okEngine okFetchLayer okFetchCommon demoParse 1
        "Layer 1 Guidance" demoState demoDoc).2.layer2Catalogs =
        demoState.layer2Catalogs ∧
      (handleStoreLayerYAML okEngine okFetchLayer okFetchCommon demoParse 1
        "Layer 1 Guidance" demoState demoDoc).2.layer3Policies =
        demoState.layer3Policies :=
  (store_layer_yaml_contract okEngine okFetchLayer okFetchCommon demoParse 1
    "Layer 1 Guidance" demoState demoDoc (by rfl)).2
    { files := [], index := [] } rfl rfl (by decide)

end Gemara
